import Mathlib

/-!
# Verification of the design-tokens-manager synchronization core

A shallow embedding, in Lean 4, of the multi-transport synchronization core of
the `design-tokens-manager` repository:

* the Token State Store (`packages/app/src/server.ts`, `TokenHttpServer`),
* the relay / broadcaster implemented as a Vite plugin
  (`hybridCommunicationPlugin`: SSE + WebSocket + HTTP endpoints),
* the client-side sync throttle and token-merge logic (`useTokens`),
* the WebSocket reconnection supervisor (`WebSocketClient`),
* the plugin-side HTTP poll consumer (`HybridClient.connectPolling`).

Pure fragments of the JavaScript/TypeScript source become Lean functions;
stateful fragments become explicit state passing.  JavaScript exceptions are
modelled with `Option`/`Except`; a JavaScript value that may be `undefined`
becomes an `Option`.  Token `value` payloads are opaque to all of the embedded
code (never inspected, only carried), so they are modelled as `String`.
-/

set_option autoImplicit false

namespace DTM

/-- A design token as carried on the wire (`DesignToken` in the TS source:
`id`, `name`, `type`, `value`, optional `description`).  The `value` field is
`any` in the source and is never inspected by the synchronization core, so it
is modelled as an opaque `String`. -/
structure DesignToken where
  id : String
  name : String
  ttype : String
  value : String
  description : Option String
  deriving Repr, DecidableEq

/-! ## Token State Store (`TokenHttpServer.handleTokenMessage`) -/

/-- The wire message consumed by `TokenHttpServer.handleTokenMessage`:
`type: 'sync' | 'update' | 'create' | 'delete'` with its type-dependent
payload (`payload.tokens`, `payload.token`, `payload.tokenId`). -/
inductive TokenMessage where
  | sync (tokens : List DesignToken)
  | update (token : DesignToken)
  | create (token : DesignToken)
  | delete (tokenId : String)
  deriving Repr, DecidableEq

/-- `TokenHttpServer.handleTokenMessage`, acting on the stored `tokens` array.
`sync` replaces the array; `update` uses `findIndex` on the id and replaces
the found entry, else pushes; `create` pushes; `delete` filters out entries
whose id equals `payload.tokenId`. -/
def handleTokenMessage (message : TokenMessage) (tokens : List DesignToken) :
    List DesignToken :=
  match message with
  | .sync ts => ts
  | .update t =>
    match tokens.findIdx? (fun u => u.id == t.id) with
    | some i => tokens.set i t
    | none => tokens ++ [t]
  | .create t => tokens ++ [t]
  | .delete tokenId => tokens.filter (fun t => t.id != tokenId)

example :
    handleTokenMessage (.delete "a")
      [⟨"a", "n", "color", "v", none⟩, ⟨"b", "m", "color", "w", none⟩] =
      [⟨"b", "m", "color", "w", none⟩] := by decide

example :
    handleTokenMessage (.update ⟨"c", "n", "color", "v", none⟩)
      [⟨"b", "m", "color", "w", none⟩] =
      [⟨"b", "m", "color", "w", none⟩, ⟨"c", "n", "color", "v", none⟩] := by
  decide

/-! ## Relay / broadcaster (`hybridCommunicationPlugin` in the Vite config)

The relay keeps two client sets (`sseClients`, `wsClients`) and the mutable
`currentTokens` array.  An SSE client is a response handle whose `write` may
throw; a WebSocket client has a `readyState` (1 = OPEN) and a `send` that may
throw.  Whether a given client's write/send throws during a particular
broadcast is modelled as a boolean on the client. -/

/-- An SSE client (a held-open HTTP response handle in `sseClients`). -/
structure SseClient where
  cid : Nat
  writeFails : Bool
  deriving Repr, DecidableEq

/-- A WebSocket client in `wsClients`; `readyState = 1` means OPEN. -/
structure WsClient where
  cid : Nat
  readyState : Nat
  sendFails : Bool
  deriving Repr, DecidableEq

/-- The `payload` object of a wire message, as read by the relay.  The relay
only ever reads `payload.tokens`; `none` models an absent (`undefined`)
`tokens` field (as in `update`/`create`/`delete` payloads). -/
structure WirePayload where
  tokens : Option (List DesignToken)
  deriving Repr, DecidableEq

/-- A parsed inbound wire message: `type` plus optional `payload`
(`none` models `message.payload === undefined`). -/
structure WireMessage where
  type : String
  payload : Option WirePayload
  deriving Repr, DecidableEq

/-- A stamped message, `\x7b...message, source, timestamp\x7d`: the original
message fields with `source` and `timestamp` added by the relay. -/
structure Stamped where
  msg : WireMessage
  source : String
  timestamp : Nat
  deriving Repr, DecidableEq

/-- Which transport an outbound send used. -/
inductive Transport where
  | sse
  | ws
  deriving Repr, DecidableEq

/-- One outbound send performed during a broadcast: the receiving client id,
its transport, and the stamped message delivered (over SSE it is framed as a
`data: <JSON>` event, over WebSocket as a raw JSON string). -/
structure Send where
  cid : Nat
  transport : Transport
  data : Stamped
  deriving Repr, DecidableEq

/-- The relay's mutable state: both connected-client sets and the
`currentTokens` snapshot. -/
structure RelayState where
  sseClients : List SseClient
  wsClients : List WsClient
  currentTokens : List DesignToken
  deriving Repr, DecidableEq

/-- The SSE half of `broadcastToAll`: `client.write` inside `try/catch`; a
throwing client is deleted from `sseClients` and the loop continues.  Returns
the surviving client list and the sends performed, in iteration order. -/
def sseBroadcast (data : Stamped) : List SseClient → List SseClient × List Send
  | [] => ([], [])
  | c :: rest =>
    if c.writeFails then sseBroadcast data rest
    else
      let r := sseBroadcast data rest
      (c :: r.1, ⟨c.cid, .sse, data⟩ :: r.2)

/-- The WebSocket half of `broadcastToAll`: `client.send` is attempted only
when `readyState === 1`; a throwing client is deleted from `wsClients` and the
loop continues; a non-OPEN client is skipped but kept. -/
def wsBroadcast (data : Stamped) : List WsClient → List WsClient × List Send
  | [] => ([], [])
  | c :: rest =>
    if c.readyState = 1 then
      if c.sendFails then wsBroadcast data rest
      else
        let r := wsBroadcast data rest
        (c :: r.1, ⟨c.cid, .ws, data⟩ :: r.2)
    else
      let r := wsBroadcast data rest
      (c :: r.1, r.2)

/-- `broadcastToAll(data)`: broadcast to every SSE client, then every
WebSocket client.  There is no exclusion parameter: the originating client, if
it is in either set, is broadcast to like any other client. -/
def broadcastToAll (data : Stamped) (st : RelayState) : RelayState × List Send :=
  let s := sseBroadcast data st.sseClients
  let w := wsBroadcast data st.wsClients
  ({ st with sseClients := s.1, wsClients := w.1 }, s.2 ++ w.2)

/-- The store step of a `sync` message: when `payload.tokens` is present,
replace `currentTokens`.  A JavaScript empty array is truthy, so `sync` with
`tokens: []` does store the empty array. -/
def applyIncomingSync (p : WirePayload) (st : RelayState) : RelayState :=
  match p.tokens with
  | some ts => { st with currentTokens := ts }
  | none => st

/-- The shared inbound path of both the WebSocket `message` handler and the
HTTP POST handler: if `message.type === 'sync' && message.payload.tokens`,
store `payload.tokens` into `currentTokens`; then broadcast the stamped
message.  Returns `none` when evaluating `message.payload.tokens` throws a
TypeError (`type === 'sync'` with `payload` undefined); in the source that
exception is caught by the surrounding handler before any state mutation or
broadcast has happened. -/
def processInbound (message : WireMessage) (source : String) (now : Nat)
    (st : RelayState) : Option (RelayState × List Send) :=
  if message.type = "sync" then
    match message.payload with
    | none => none
    | some p => some (broadcastToAll ⟨message, source, now⟩
        (applyIncomingSync p st))
  else
    some (broadcastToAll ⟨message, source, now⟩ st)

/-- The relay's `ws.on('message')` handler: `JSON.parse` (with `parsed = none`
modelling a parse failure), then the shared inbound path with
`source: 'websocket'`; any exception is caught, dropping the single message. -/
def wsOnMessage (parsed : Option WireMessage) (now : Nat) (st : RelayState) :
    RelayState × List Send :=
  match parsed with
  | none => (st, [])
  | some m =>
    match processInbound m "websocket" now st with
    | none => (st, [])
    | some r => r

/-- Response of the POST `/api/tokens` handler: 200 with client counts on
success, 400 with an `error` body on a caught exception. -/
inductive PostResponse where
  | ok (sseClients wsClients totalClients : Nat)
  | badRequest (error : String)
  deriving Repr, DecidableEq

/-- The POST `/api/tokens` handler: parse the body (`none` = invalid JSON),
run the shared inbound path with `source: 'figma'`, answer 200 with the client
counts, or 400 with `error: 'Invalid JSON'` when anything in the `try` block
threw (before any mutation or broadcast). -/
def handlePost (body : Option WireMessage) (now : Nat) (st : RelayState) :
    RelayState × List Send × PostResponse :=
  match body with
  | none => (st, [], .badRequest "Invalid JSON")
  | some m =>
    match processInbound m "figma" now st with
    | none => (st, [], .badRequest "Invalid JSON")
    | some (st1, sends) =>
      (st1, sends, .ok st1.sseClients.length st1.wsClients.length
        (st1.sseClients.length + st1.wsClients.length))

/-- Body of the GET `/api/tokens` response. -/
structure GetResponse where
  tokens : List DesignToken
  timestamp : Nat
  sse : Nat
  ws : Nat
  total : Nat
  deriving Repr, DecidableEq

/-- The GET `/api/tokens` handler: returns the current snapshot and client
counts; the relay state is untouched. -/
def handleGet (now : Nat) (st : RelayState) : RelayState × GetResponse :=
  (st, ⟨st.currentTokens, now, st.sseClients.length, st.wsClients.length,
    st.sseClients.length + st.wsClients.length⟩)

/-- The catch-up message sent to a newly connected client when
`currentTokens` is non-empty: literally
`\x7b type: 'initial_sync', tokens: currentTokens, timestamp \x7d` — note the
`tokens` array sits at top level, there is no `payload` object. -/
structure CatchUp where
  type : String
  tokens : List DesignToken
  timestamp : Nat
  deriving Repr, DecidableEq

/-- The relay's `wss.on('connection')` handler: add the socket to
`wsClients`; if `currentTokens.length > 0`, send the catch-up message to that
socket alone. -/
def wsOnConnection (c : WsClient) (now : Nat) (st : RelayState) :
    RelayState × Option CatchUp :=
  ({ st with wsClients := st.wsClients ++ [c] },
   if st.currentTokens.length > 0 then
     some ⟨"initial_sync", st.currentTokens, now⟩
   else none)

/-- The GET `/api/stream` connection path: write the catch-up event if
`currentTokens.length > 0`, then add the response handle to `sseClients`. -/
def sseOnConnection (c : SseClient) (now : Nat) (st : RelayState) :
    RelayState × Option CatchUp :=
  ({ st with sseClients := st.sseClients ++ [c] },
   if st.currentTokens.length > 0 then
     some ⟨"initial_sync", st.currentTokens, now⟩
   else none)

/-! ## Client-side sync consumption (`useTokens` in the web app)

`useTokens` holds `tokens : TokenWithId[]` and `lastSyncTime`; its
`ws.onmessage` handler gates an inbound `sync` message on a 1000 ms
interval check, then converts the incoming `DesignToken`s and merges them
with the previously stored tokens.  The handler closure is created by a
single `useEffect` run — the effect's dependency list is
`[convertDesignToken]` and `convertDesignToken` is a `useCallback` with an
empty dependency list, so the effect never re-runs — hence the
`lastSyncTime` the guard reads is the value captured at that single run (0,
the initial state), not the live component state that `setLastSyncTime`
updates.  The embedding keeps that captured value as an explicit `capture`
parameter; the program instantiates it with 0. -/

/-- A token as stored by the web app (`TokenWithId`): `id`, `name`, `$type`,
`$value`, optional `$description`. -/
structure TokenWithId where
  id : String
  name : String
  ttype : String
  value : String
  description : Option String
  deriving Repr, DecidableEq

/-- The `typeMapping` record literal inside `convertDesignToken`: a partial
map from Figma token types to DTCG types (`none` = key absent, i.e. the
lookup yields `undefined`). -/
def typeMapping (t : String) : Option String :=
  if t = "color" then some "color"
  else if t = "typography" then some "typography"
  else if t = "dimension" then some "dimension"
  else if t = "fontFamily" then some "fontFamily"
  else if t = "fontWeight" then some "fontWeight"
  else if t = "number" then some "number"
  else if t = "string" then some "fontFamily"
  else if t = "boolean" then some "number"
  else none

/-- `convertDesignToken`: map a Figma `DesignToken` to a `TokenWithId`,
translating the type through `typeMapping` with `'dimension'` as the
`||`-fallback (every mapped type string is truthy). -/
def convertDesignToken (d : DesignToken) : TokenWithId :=
  ⟨d.id, d.name, (typeMapping d.ttype).getD "dimension", d.value, d.description⟩

/-- The `isFigmaToken` test inside the `setTokens` merge callback: a stored
token is Figma-originated when its id starts with `S:`, `T:` or `debug-`,
contains `VariableID:`, or exactly matches an incoming token id. -/
def isFigmaToken (incomingTokenIds : List String) (t : TokenWithId) : Bool :=
  t.id.startsWith "S:" || t.id.startsWith "T:" || t.id.startsWith "debug-" ||
    t.id.containsSubstr "VariableID:" || incomingTokenIds.contains t.id

/-- The applied-sync merge inside `ws.onmessage` (the `setTokens` update
function): convert the incoming Figma tokens, keep the previous tokens that
are not Figma-originated, and append the converted incoming set. -/
def applySyncTokens (figmaTokens : List DesignToken)
    (prevTokens : List TokenWithId) : List TokenWithId :=
  let convertedTokens := figmaTokens.map convertDesignToken
  let incomingTokenIds := convertedTokens.map (fun t => t.id)
  let manualTokens := prevTokens.filter (fun t => !isFigmaToken incomingTokenIds t)
  manualTokens ++ convertedTokens

/-- Client-side state touched by the sync path of `ws.onmessage`: the stored
token list and `lastSyncTime` (ms since epoch, initially 0). -/
structure ClientState where
  tokens : List TokenWithId
  lastSyncTime : Int
  deriving Repr, DecidableEq

/-- The throttle interval hard-coded in `ws.onmessage`: 1000 ms. -/
def minSyncIntervalMs : Int := 1000

/-- The sync branch of `ws.onmessage` (reached when
`message.type === 'sync' && message.payload?.tokens`), as the program
executes it: the guard compares `now` against `capture`, the `lastSyncTime`
value frozen into the handler closure when the effect ran (0 in the
program), not against the live `st.lastSyncTime`.  When the guard passes,
`setLastSyncTime now` writes the live state and the merge runs through the
functional-update form of `setTokens` (which does read live token state). -/
def clientSyncEvent (capture : Int) (figmaTokens : List DesignToken)
    (now : Int) (st : ClientState) : ClientState :=
  if now - capture < minSyncIntervalMs then st
  else ⟨applySyncTokens figmaTokens st.tokens, now⟩

/-! ## WebSocket reconnection supervisor (`WebSocketClient`) -/

/-- Observable status of the reconnection supervisor: `retrying` means a
reconnect has been scheduled by `attemptReconnect`; `gaveUp` means the cap
was hit and no reconnect was scheduled. -/
inductive SupStatus where
  | connected
  | retrying
  | gaveUp
  deriving Repr, DecidableEq

/-- Supervisor state: the `reconnectAttempts` counter plus the status implied
by the last event handled. -/
structure SupState where
  reconnectAttempts : Nat
  status : SupStatus
  deriving Repr, DecidableEq

/-- `WebSocketClient.maxReconnectAttempts` (5). -/
def maxReconnectAttempts : Nat := 5

/-- The `open` handler of `WebSocketClient.connect`: reset
`reconnectAttempts` to 0. -/
def supOnOpen (_st : SupState) : SupState := ⟨0, .connected⟩

/-- `WebSocketClient.attemptReconnect`, invoked by the `close` handler: if
`reconnectAttempts < maxReconnectAttempts`, increment the counter and
schedule a reconnect (status `retrying`); otherwise log and schedule nothing
(status `gaveUp`). -/
def supOnClose (st : SupState) : SupState :=
  if st.reconnectAttempts < maxReconnectAttempts then
    ⟨st.reconnectAttempts + 1, .retrying⟩
  else
    ⟨st.reconnectAttempts, .gaveUp⟩

/-- The supervisor state after `k` consecutive close events starting from a
fresh connection (counter 0). -/
def supAfterCloses : Nat → SupState
  | 0 => ⟨0, .connected⟩
  | k + 1 => supOnClose (supAfterCloses k)

/-! ## Plugin-side poll consumer (`HybridClient.connectPolling`) -/

/-- The outcome of one polling `fetch` of GET `/api/tokens`, as inspected by
`pollForUpdates`: `response.ok`, and the `tokens` field of the parsed body
(`none` = absent/undefined). -/
structure PollResponse where
  ok : Bool
  tokens : Option (List DesignToken)
  deriving Repr, DecidableEq

/-- One tick of `pollForUpdates`: when `response.ok` and
`data.tokens && data.tokens.length > 0`, build the message
`\x7b type: 'sync', payload: \x7b tokens: data.tokens \x7d \x7d` and dispatch
it to every registered message handler; otherwise dispatch nothing.  Returns
the dispatched message, if any. -/
def pollTick (resp : PollResponse) : Option WireMessage :=
  if resp.ok then
    match resp.tokens with
    | some ts => if ts.length > 0 then some ⟨"sync", some ⟨some ts⟩⟩ else none
    | none => none
  else none

/-- Specification-level description of the sends of a fully successful
broadcast: the stamped message goes to every SSE client and to every OPEN
WebSocket client — with no exclusion of any originating client. -/
def allClientSends (data : Stamped) (st : RelayState) : List Send :=
  st.sseClients.map (fun c => ⟨c.cid, .sse, data⟩) ++
    (st.wsClients.filter (fun c => decide (c.readyState = 1))).map
      (fun c => ⟨c.cid, .ws, data⟩)

/-! ## Helper lemmas -/

/-- Closed form of the SSE broadcast loop: failing clients are dropped, every
surviving client is sent the message, in order. -/
theorem sseBroadcast_eq (data : Stamped) (l : List SseClient) :
    sseBroadcast data l =
      (l.filter (fun c => !c.writeFails),
       (l.filter (fun c => !c.writeFails)).map
         (fun c => ⟨c.cid, .sse, data⟩)) := by
  induction l with
  | nil => rfl
  | cons c rest ih =>
    simp only [sseBroadcast, List.filter_cons]
    cases h : c.writeFails <;> simp [ih, h]

/-- Closed form of the WebSocket broadcast loop: OPEN failing clients are
dropped, OPEN non-failing clients are kept and sent the message, non-OPEN
clients are kept and skipped. -/
theorem wsBroadcast_eq (data : Stamped) (l : List WsClient) :
    wsBroadcast data l =
      (l.filter (fun c => !(decide (c.readyState = 1) && c.sendFails)),
       (l.filter (fun c => decide (c.readyState = 1) && !c.sendFails)).map
         (fun c => ⟨c.cid, .ws, data⟩)) := by
  induction l with
  | nil => rfl
  | cons c rest ih =>
    simp only [wsBroadcast, List.filter_cons]
    by_cases h1 : c.readyState = 1 <;> cases h2 : c.sendFails <;>
      simp [ih, h1, h2]

/-- Closed form of `broadcastToAll`. -/
theorem broadcastToAll_eq (data : Stamped) (st : RelayState) :
    broadcastToAll data st =
      ({ st with
          sseClients := st.sseClients.filter (fun c => !c.writeFails),
          wsClients := st.wsClients.filter
            (fun c => !(decide (c.readyState = 1) && c.sendFails)) },
       (st.sseClients.filter (fun c => !c.writeFails)).map
           (fun c => ⟨c.cid, .sse, data⟩) ++
         (st.wsClients.filter
             (fun c => decide (c.readyState = 1) && !c.sendFails)).map
           (fun c => ⟨c.cid, .ws, data⟩)) := by
  unfold broadcastToAll
  rw [sseBroadcast_eq, wsBroadcast_eq]

/-- When no client's write/send throws, a broadcast leaves the client sets
untouched and sends to every SSE client and every OPEN WebSocket client. -/
theorem broadcastToAll_no_failures (data : Stamped) (st : RelayState)
    (hsse : ∀ c ∈ st.sseClients, c.writeFails = false)
    (hws : ∀ c ∈ st.wsClients, c.sendFails = false) :
    broadcastToAll data st = (st, allClientSends data st) := by
  rw [broadcastToAll_eq]
  have h1 : st.sseClients.filter (fun c => !c.writeFails) = st.sseClients :=
    List.filter_eq_self.mpr (fun c hc => by simp [hsse c hc])
  have h2 : st.wsClients.filter
      (fun c => !(decide (c.readyState = 1) && c.sendFails)) = st.wsClients :=
    List.filter_eq_self.mpr (fun c hc => by simp [hws c hc])
  have h3 : st.wsClients.filter
        (fun c => decide (c.readyState = 1) && !c.sendFails) =
      st.wsClients.filter (fun c => decide (c.readyState = 1)) :=
    List.filter_congr (fun c hc => by simp [hws c hc])
  rw [h1, h2, h3]
  rfl

/-- Every successful run of the shared inbound path is a broadcast of the
stamped message over the inbound state with `currentTokens` possibly
replaced; replacement happens exactly for a `sync` whose `payload.tokens` is
present. -/
theorem processInbound_cases (m : WireMessage) (source : String) (now : Nat)
    (st : RelayState) :
    processInbound m source now st = none ∨
    ∃ ts, processInbound m source now st =
        some (broadcastToAll ⟨m, source, now⟩ { st with currentTokens := ts }) ∧
      (ts = st.currentTokens ∨
        (m.type = "sync" ∧ ∃ p, m.payload = some p ∧ p.tokens = some ts)) := by
  unfold processInbound
  by_cases hty : m.type = "sync"
  · rw [if_pos hty]
    cases hp : m.payload with
    | none => exact Or.inl rfl
    | some p =>
      cases ht : p.tokens with
      | none =>
        refine Or.inr ⟨st.currentTokens, ?_, Or.inl rfl⟩
        show some (broadcastToAll ⟨m, source, now⟩ (applyIncomingSync p st)) = _
        have hs : applyIncomingSync p st = st := by
          unfold applyIncomingSync
          rw [ht]
        rw [hs]
      | some ts =>
        refine Or.inr ⟨ts, ?_, Or.inr ⟨hty, p, rfl, ht⟩⟩
        show some (broadcastToAll ⟨m, source, now⟩ (applyIncomingSync p st)) = _
        have hs : applyIncomingSync p st = { st with currentTokens := ts } := by
          unfold applyIncomingSync
          rw [ht]
        rw [hs]
  · rw [if_neg hty]
    exact Or.inr ⟨st.currentTokens, rfl, Or.inl rfl⟩

/-- A list with no hit before position `l1.length` and a hit there has its
first hit at `l1.length`. -/
theorem findIdx?_append_first {α : Type} (p : α → Bool) (l1 l2 : List α)
    (u : α) (h1 : ∀ v ∈ l1, p v = false) (hu : p u = true) :
    (l1 ++ u :: l2).findIdx? p = some l1.length := by
  rw [List.findIdx?_append]
  rw [List.findIdx?_eq_none_iff.mpr h1]
  rw [List.findIdx?_cons, if_pos hu]
  simp

/-- Setting the element just past a left part rewrites the head of the right
part. -/
theorem set_append_head {α : Type} (l1 l2 : List α) (u t : α) :
    (l1 ++ u :: l2).set l1.length t = l1 ++ t :: l2 := by
  rw [List.set_append, if_neg (by omega)]
  simp

/-! ## Claim theorems -/

/-- Claim C3: on the Token State Store, a `delete` with no matching id is a
no-op; an `update` with no matching id appends the token; an `update` whose
id first matches at a position replaces exactly that entry, all other entries
unchanged in order; a `delete` removes exactly the matching entries, the rest
unchanged in order. -/
theorem C3_token_store_ops (tokens : List DesignToken) (tid : String)
    (t u : DesignToken) (l1 l2 : List DesignToken) :
    ((∀ v ∈ tokens, v.id ≠ tid) →
      handleTokenMessage (.delete tid) tokens = tokens) ∧
    ((∀ v ∈ tokens, v.id ≠ t.id) →
      handleTokenMessage (.update t) tokens = tokens ++ [t]) ∧
    ((∀ v ∈ l1, v.id ≠ t.id) → u.id = t.id →
      handleTokenMessage (.update t) (l1 ++ u :: l2) = l1 ++ t :: l2) ∧
    (handleTokenMessage (.delete tid) tokens =
      tokens.filter (fun v => decide (v.id ≠ tid))) := by
  refine ⟨?_, ?_, ?_, ?_⟩
  · intro h
    show tokens.filter (fun v => v.id != tid) = tokens
    exact List.filter_eq_self.mpr (fun v hv => by simp [h v hv])
  · intro h
    show (match tokens.findIdx? (fun v => v.id == t.id) with
      | some i => tokens.set i t
      | none => tokens ++ [t]) = tokens ++ [t]
    rw [List.findIdx?_eq_none_iff.mpr (fun v hv => by simp [h v hv])]
  · intro h1 hu
    show (match (l1 ++ u :: l2).findIdx? (fun v => v.id == t.id) with
      | some i => (l1 ++ u :: l2).set i t
      | none => (l1 ++ u :: l2) ++ [t]) = l1 ++ t :: l2
    rw [findIdx?_append_first _ l1 l2 u (fun v hv => by simp [h1 v hv])
      (by simp [hu])]
    exact set_append_head l1 l2 u t
  · show tokens.filter (fun v => v.id != tid) =
      tokens.filter (fun v => decide (v.id ≠ tid))
    exact List.filter_congr (fun v _ => by
      by_cases h : v.id = tid <;> simp [h, bne_iff_ne])

/-- Claim C3 witness: the Token State Store operations evaluated at concrete
inputs through `C3_token_store_ops`. -/
theorem C3_token_store_ops_witness :
    handleTokenMessage (.delete "zz")
        [⟨"a", "n", "color", "v", none⟩] = [⟨"a", "n", "color", "v", none⟩] ∧
    handleTokenMessage (.update ⟨"b", "m", "color", "w", none⟩)
        [⟨"a", "n", "color", "v", none⟩] =
      [⟨"a", "n", "color", "v", none⟩, ⟨"b", "m", "color", "w", none⟩] ∧
    handleTokenMessage (.update ⟨"a", "m2", "color", "w2", none⟩)
        ([⟨"z", "p", "color", "q", none⟩] ++
          ⟨"a", "n", "color", "v", none⟩ :: [⟨"a", "n3", "color", "v3", none⟩]) =
      [⟨"z", "p", "color", "q", none⟩] ++
        ⟨"a", "m2", "color", "w2", none⟩ :: [⟨"a", "n3", "color", "v3", none⟩] :=
  ⟨(C3_token_store_ops [⟨"a", "n", "color", "v", none⟩] "zz"
      ⟨"b", "m", "color", "w", none⟩ ⟨"b", "m", "color", "w", none⟩ [] []).1
    (by decide),
   (C3_token_store_ops [⟨"a", "n", "color", "v", none⟩] "zz"
      ⟨"b", "m", "color", "w", none⟩ ⟨"b", "m", "color", "w", none⟩ [] []).2.1
    (by decide),
   (C3_token_store_ops [] "zz" ⟨"a", "m2", "color", "w2", none⟩
      ⟨"a", "n", "color", "v", none⟩ [⟨"z", "p", "color", "q", none⟩]
      [⟨"a", "n3", "color", "v3", none⟩]).2.2.1 (by decide) (by decide)⟩

/-- Claim C6: a POST `/api/tokens` whose body is not valid JSON yields a 400
response with body error `Invalid JSON`, leaves the relay state (both client
sets and `currentTokens`) untouched, and performs no sends at all. -/
theorem C6_invalid_json_post (now : Nat) (st : RelayState) :
    handlePost none now st = (st, [], .badRequest "Invalid JSON") := rfl

/-- Claim C10: a poll tick dispatches to the message handlers only when the
response is ok and carries a non-empty `tokens` array, in which case the
dispatched message is a `sync` wrapping exactly those tokens; an ok response
with an empty or absent `tokens` array dispatches nothing. -/
theorem C10_poll_dispatch (resp : PollResponse) :
    (∀ m, pollTick resp = some m →
      resp.ok = true ∧ ∃ ts, ts ≠ [] ∧ resp.tokens = some ts ∧
        m = ⟨"sync", some ⟨some ts⟩⟩) ∧
    (resp.tokens = some [] → pollTick resp = none) ∧
    (resp.ok = false → pollTick resp = none) ∧
    (∀ ts, resp.ok = true → resp.tokens = some ts → ts ≠ [] →
      pollTick resp = some ⟨"sync", some ⟨some ts⟩⟩) := by
  obtain ⟨ok, tks⟩ := resp
  cases ok with
  | false => simp [pollTick]
  | true =>
    cases tks with
    | none => simp [pollTick]
    | some ts =>
      cases ts with
      | nil => simp [pollTick]
      | cons a l =>
        refine ⟨?_, ?_, ?_, ?_⟩
        · intro m hm
          simp [pollTick] at hm
          subst hm
          exact ⟨rfl, a :: l, by simp, rfl, rfl⟩
        · intro h
          simp at h
        · intro h
          simp at h
        · intro ts2 _ h2 _
          injection h2 with h2
          subst h2
          simp [pollTick]

/-- Claim C10 witness: an ok poll response with an empty token array
dispatches nothing; one with a non-empty array dispatches the corresponding
`sync`, via `C10_poll_dispatch`. -/
theorem C10_poll_dispatch_witness :
    pollTick ⟨true, some []⟩ = none ∧
    pollTick ⟨true, some [⟨"a", "n", "color", "v", none⟩]⟩ =
      some ⟨"sync", some ⟨some [⟨"a", "n", "color", "v", none⟩]⟩⟩ :=
  ⟨(C10_poll_dispatch ⟨true, some []⟩).2.1 rfl,
   (C10_poll_dispatch ⟨true, some [⟨"a", "n", "color", "v", none⟩]⟩).2.2.2
     [⟨"a", "n", "color", "v", none⟩] rfl rfl (by decide)⟩

/-- Claim C4 (code bug): the `ws.onmessage` closure reads the `lastSyncTime`
capture frozen at 0, so its guard is `now - 0 < 1000`, false at every real
wall-clock time (`now ≥ 1000`): a sync is never suppressed, and two
identical syncs arriving at any two real times — in particular within the
1000 ms window — are both applied, each mutating the token state and
`lastSyncTime`.  This contradicts the code's own comment (`min 1 second
between syncs`) and its suppression log line, which the frozen capture makes
unreachable, as well as the spec's throttle contract. -/
theorem C4_throttle_never_suppresses (figmaTokens laterTokens :
      List DesignToken) (now t2 : Int) (st : ClientState)
    (hnow : 1000 ≤ now) (ht2 : 1000 ≤ t2) :
    clientSyncEvent 0 figmaTokens now st =
      ⟨applySyncTokens figmaTokens st.tokens, now⟩ ∧
    clientSyncEvent 0 laterTokens t2 (clientSyncEvent 0 figmaTokens now st) =
      ⟨applySyncTokens laterTokens (applySyncTokens figmaTokens st.tokens),
        t2⟩ := by
  have e1 : clientSyncEvent 0 figmaTokens now st =
      ⟨applySyncTokens figmaTokens st.tokens, now⟩ := by
    unfold clientSyncEvent
    rw [if_neg (not_lt.mpr (by simpa [minSyncIntervalMs] using hnow))]
  refine ⟨e1, ?_⟩
  rw [e1]
  unfold clientSyncEvent
  rw [if_neg (not_lt.mpr (by simpa [minSyncIntervalMs] using ht2))]

/-- Claim C4 witness: via `C4_throttle_never_suppresses` at the failing
input — two identical syncs at 2000 ms and 2500 ms, only 500 ms apart and
thus inside the throttle window, are both applied: two state mutations where
the claim requires exactly one. -/
theorem C4_throttle_never_suppresses_witness :
    clientSyncEvent 0 [] 2000 ⟨[], 0⟩ = ⟨applySyncTokens [] [], 2000⟩ ∧
    clientSyncEvent 0 [] 2500 (clientSyncEvent 0 [] 2000 ⟨[], 0⟩) =
      ⟨applySyncTokens [] (applySyncTokens [] []), 2500⟩ :=
  C4_throttle_never_suppresses [] [] 2000 2500 ⟨[], 0⟩ (by decide) (by decide)

/-- Five-way De Morgan step used for the merge partition. -/
theorem not_or_five (a b c d e : Bool) :
    (!(a || b || c || d || e)) = (!a && !b && !c && !d && !e) := by
  cases a <;> cases b <;> cases c <;> cases d <;> cases e <;> rfl

/-- Claim C5: an applied sync replaces the tool-originated tokens wholesale
and preserves the manual ones — the result is exactly the previous tokens
whose id does not start with `S:`, `T:` or `debug-`, does not contain
`VariableID:` and does not equal any incoming token id, followed by the
converted incoming tokens. -/
theorem C5_sync_merge_partition (figmaTokens : List DesignToken)
    (prevTokens : List TokenWithId) :
    applySyncTokens figmaTokens prevTokens =
      prevTokens.filter (fun t =>
        !t.id.startsWith "S:" && !t.id.startsWith "T:" &&
        !t.id.startsWith "debug-" && !(t.id.containsSubstr "VariableID:") &&
        !(figmaTokens.map (fun d => d.id)).contains t.id) ++
      figmaTokens.map convertDesignToken := by
  have hids : (figmaTokens.map convertDesignToken).map (fun t => t.id) =
      figmaTokens.map (fun d => d.id) := by
    rw [List.map_map]
    rfl
  simp only [applySyncTokens]
  congr 1
  apply List.filter_congr
  intro t _
  unfold isFigmaToken
  rw [hids, not_or_five]

/-- Claim C7 counterexample: after exactly `maxReconnectAttempts = 5`
consecutive close events the supervisor has just scheduled a fifth reconnect
(status `retrying`, counter 5) — it has not transitioned to `gaveUp` as the
claim states; `gaveUp` only happens on the following close. -/
theorem C7_cap_counterexample :
    supAfterCloses maxReconnectAttempts = ⟨5, .retrying⟩ ∧
    (supAfterCloses maxReconnectAttempts).status ≠ .gaveUp := by decide

/-- Once past the cap, every further close leaves the supervisor given up
with the counter parked at the cap. -/
theorem supAfterCloses_gaveUp (n : Nat) :
    supAfterCloses (maxReconnectAttempts + 1 + n) =
      ⟨maxReconnectAttempts, .gaveUp⟩ := by
  induction n with
  | zero => decide
  | succ m ih =>
    show supOnClose (supAfterCloses (maxReconnectAttempts + 1 + m)) = _
    rw [ih]
    decide

/-- Claim C7 (amended): after `K` consecutive close events with
`1 ≤ K ≤ cap` the supervisor is retrying with attempt counter `K` (a
reconnect is scheduled even at `K = cap`); from `K = cap + 1` onward it is
`gaveUp` with the counter parked at the cap and schedules no further
automatic reconnects; a successful open resets the counter to 0. -/
theorem C7_reconnect_cap (k : Nat) :
    (1 ≤ k → k ≤ maxReconnectAttempts → supAfterCloses k = ⟨k, .retrying⟩) ∧
    (maxReconnectAttempts < k →
      supAfterCloses k = ⟨maxReconnectAttempts, .gaveUp⟩) ∧
    (∀ st, supOnOpen st = ⟨0, .connected⟩) := by
  have h5 : maxReconnectAttempts = 5 := rfl
  refine ⟨?_, ?_, fun _ => rfl⟩
  · intro h1 h2
    rw [h5] at h2
    interval_cases k <;> decide
  · intro hk
    rw [h5] at hk ⊢
    obtain ⟨n, rfl⟩ : ∃ n, k = 5 + 1 + n := ⟨k - 6, by omega⟩
    exact supAfterCloses_gaveUp n

/-- Claim C7 witness: the supervisor evaluated through `C7_reconnect_cap` —
after 3 closes it is retrying with counter 3; after 7 closes it has given up
with counter 5. -/
theorem C7_reconnect_cap_witness :
    supAfterCloses 3 = ⟨3, .retrying⟩ ∧ supAfterCloses 7 = ⟨5, .gaveUp⟩ :=
  ⟨(C7_reconnect_cap 3).1 (by decide) (by decide),
   (C7_reconnect_cap 7).2.1 (by decide)⟩

/-- Claim C2 counterexample: with one token stored, a newly connected
WebSocket client receives a directed catch-up whose `type` field is
`'initial_sync'`, not `'sync'`, and whose token array sits at top level
(the `CatchUp` shape has no `payload` object at all). -/
theorem C2_catchup_counterexample :
    (wsOnConnection ⟨0, 1, false⟩ 7
        ⟨[], [], [⟨"a", "n", "color", "v", none⟩]⟩).2 =
      some ⟨"initial_sync", [⟨"a", "n", "color", "v", none⟩], 7⟩ ∧
    "initial_sync" ≠ "sync" := by decide

/-- Claim C2 (amended): on a new client connection on either transport with
`currentTokens` non-empty, the relay immediately sends to that client alone a
directed catch-up message of type `'initial_sync'` carrying `currentTokens`
in a top-level `tokens` field (not a `sync`-type wire message); no catch-up
is sent when `currentTokens` is empty; the only state change is the new
client joining its connected set. -/
theorem C2_catchup_on_connect (cw : WsClient) (cs : SseClient) (now : Nat)
    (st : RelayState) :
    (st.currentTokens ≠ [] →
      (wsOnConnection cw now st).2 =
        some ⟨"initial_sync", st.currentTokens, now⟩ ∧
      (sseOnConnection cs now st).2 =
        some ⟨"initial_sync", st.currentTokens, now⟩) ∧
    (st.currentTokens = [] →
      (wsOnConnection cw now st).2 = none ∧
      (sseOnConnection cs now st).2 = none) ∧
    (wsOnConnection cw now st).1 =
      { st with wsClients := st.wsClients ++ [cw] } ∧
    (sseOnConnection cs now st).1 =
      { st with sseClients := st.sseClients ++ [cs] } := by
  refine ⟨?_, ?_, rfl, rfl⟩
  · intro h
    have hl : st.currentTokens.length > 0 := List.length_pos.mpr h
    exact ⟨by unfold wsOnConnection; dsimp only; rw [if_pos hl],
           by unfold sseOnConnection; dsimp only; rw [if_pos hl]⟩
  · intro h
    have hl : ¬st.currentTokens.length > 0 := by simp [h]
    exact ⟨by unfold wsOnConnection; dsimp only; rw [if_neg hl],
           by unfold sseOnConnection; dsimp only; rw [if_neg hl]⟩

/-- Claim C2 witness: via `C2_catchup_on_connect` — a WebSocket client
joining with one token stored gets the directed `initial_sync` catch-up; an
SSE client joining an empty relay gets nothing. -/
theorem C2_catchup_on_connect_witness :
    (wsOnConnection ⟨1, 1, false⟩ 7
        ⟨[], [], [⟨"a", "n", "color", "v", none⟩]⟩).2 =
      some ⟨"initial_sync", [⟨"a", "n", "color", "v", none⟩], 7⟩ ∧
    (sseOnConnection ⟨2, false⟩ 7 ⟨[], [], []⟩).2 = none :=
  ⟨((C2_catchup_on_connect ⟨1, 1, false⟩ ⟨2, false⟩ 7
      ⟨[], [], [⟨"a", "n", "color", "v", none⟩]⟩).1 (by decide)).1,
   ((C2_catchup_on_connect ⟨1, 1, false⟩ ⟨2, false⟩ 7
      ⟨[], [], []⟩).2.1 rfl).2⟩

/-- Claim C1 counterexample: with exactly one connected push client
(`N = 1`, `M = 0`) which is itself the origin of the inbound message, the
claim allows at most `N + M - 1 = 0` outbound sends, but the relay performs
one send — back to the originating socket itself (`broadcastToAll` has no
origin exclusion). -/
theorem C1_echo_counterexample :
    (wsOnMessage (some ⟨"update", none⟩) 5 ⟨[], [⟨0, 1, false⟩], []⟩).2 =
      [⟨0, .ws, ⟨⟨"update", none⟩, "websocket", 5⟩⟩] ∧
    ¬((wsOnMessage (some ⟨"update", none⟩) 5
        ⟨[], [⟨0, 1, false⟩], []⟩).2.length ≤ 1 + 0 - 1) := by decide

/-- Claim C1 (amended): every successfully relayed inbound message is
broadcast to all connected clients on both transports with no echo
suppression: when every SSE write succeeds and every WebSocket client is
OPEN and succeeds, a single inbound mutation results in exactly `N + M`
outbound sends whether the origin is a push client or a poll/request client,
and every push client — the originating socket included — receives the
stamped message. -/
theorem C1_broadcast_includes_origin (m : WireMessage) (source : String)
    (now : Nat) (st : RelayState) (st' : RelayState) (sends : List Send)
    (hsse : ∀ c ∈ st.sseClients, c.writeFails = false)
    (hws : ∀ c ∈ st.wsClients, c.readyState = 1 ∧ c.sendFails = false)
    (h : processInbound m source now st = some (st', sends)) :
    sends.length = st.sseClients.length + st.wsClients.length ∧
    ∀ c ∈ st.wsClients, Send.mk c.cid .ws ⟨m, source, now⟩ ∈ sends := by
  rcases processInbound_cases m source now st with hn | ⟨ts, heq, _⟩
  · rw [h] at hn
    cases hn
  · rw [heq] at h
    rw [broadcastToAll_no_failures ⟨m, source, now⟩
      { st with currentTokens := ts } hsse (fun c hc => (hws c hc).2)] at h
    injection h with h
    have hs : sends =
        allClientSends ⟨m, source, now⟩ { st with currentTokens := ts } :=
      (congrArg Prod.snd h).symm
    subst hs
    constructor
    · unfold allClientSends
      rw [List.filter_eq_self.mpr (fun c hc => by simp [(hws c hc).1])]
      simp
    · intro c hc
      unfold allClientSends
      refine List.mem_append_right _ ?_
      refine List.mem_map_of_mem _ ?_
      exact List.mem_filter.mpr ⟨hc, by simp [(hws c hc).1]⟩

/-- Claim C1 witness: via `C1_broadcast_includes_origin` — one SSE client
and two push clients, the inbound message arriving from push client 0: the
relay makes `1 + 2 = 3` sends, among them one back to the origin itself. -/
theorem C1_broadcast_includes_origin_witness :
    processInbound ⟨"update", none⟩ "websocket" 5
        ⟨[⟨1, false⟩], [⟨0, 1, false⟩, ⟨2, 1, false⟩], []⟩ =
      some (⟨[⟨1, false⟩], [⟨0, 1, false⟩, ⟨2, 1, false⟩], []⟩,
        [⟨1, .sse, ⟨⟨"update", none⟩, "websocket", 5⟩⟩,
         ⟨0, .ws, ⟨⟨"update", none⟩, "websocket", 5⟩⟩,
         ⟨2, .ws, ⟨⟨"update", none⟩, "websocket", 5⟩⟩]) ∧
    ([⟨1, .sse, ⟨⟨"update", none⟩, "websocket", 5⟩⟩,
      ⟨0, .ws, ⟨⟨"update", none⟩, "websocket", 5⟩⟩,
      ⟨2, .ws, ⟨⟨"update", none⟩, "websocket", 5⟩⟩] : List Send).length =
      1 + 2 ∧
    Send.mk 0 .ws ⟨⟨"update", none⟩, "websocket", 5⟩ ∈
      [⟨1, .sse, ⟨⟨"update", none⟩, "websocket", 5⟩⟩,
       ⟨0, .ws, ⟨⟨"update", none⟩, "websocket", 5⟩⟩,
       ⟨2, .ws, ⟨⟨"update", none⟩, "websocket", 5⟩⟩] :=
  ⟨by decide,
   (C1_broadcast_includes_origin ⟨"update", none⟩ "websocket" 5
     ⟨[⟨1, false⟩], [⟨0, 1, false⟩, ⟨2, 1, false⟩], []⟩
     ⟨[⟨1, false⟩], [⟨0, 1, false⟩, ⟨2, 1, false⟩], []⟩
     [⟨1, .sse, ⟨⟨"update", none⟩, "websocket", 5⟩⟩,
      ⟨0, .ws, ⟨⟨"update", none⟩, "websocket", 5⟩⟩,
      ⟨2, .ws, ⟨⟨"update", none⟩, "websocket", 5⟩⟩]
     (by decide) (by decide) (by decide)).1,
   (C1_broadcast_includes_origin ⟨"update", none⟩ "websocket" 5
     ⟨[⟨1, false⟩], [⟨0, 1, false⟩, ⟨2, 1, false⟩], []⟩
     ⟨[⟨1, false⟩], [⟨0, 1, false⟩, ⟨2, 1, false⟩], []⟩
     [⟨1, .sse, ⟨⟨"update", none⟩, "websocket", 5⟩⟩,
      ⟨0, .ws, ⟨⟨"update", none⟩, "websocket", 5⟩⟩,
      ⟨2, .ws, ⟨⟨"update", none⟩, "websocket", 5⟩⟩]
     (by decide) (by decide) (by decide)).2 ⟨0, 1, false⟩ (by decide)⟩

/-- Claim C8: during any broadcast, an SSE client whose write throws and an
OPEN WebSocket client whose send throws are each removed from their
connected set, while every other SSE client and every other OPEN,
non-throwing WebSocket client is still sent the message — one client's
failure never aborts the broadcast for the rest. -/
theorem C8_broadcast_failure_isolation (data : Stamped) (st : RelayState) :
    (∀ c ∈ st.sseClients, c.writeFails = true →
      c ∉ (broadcastToAll data st).1.sseClients) ∧
    (∀ c ∈ st.sseClients, c.writeFails = false →
      c ∈ (broadcastToAll data st).1.sseClients ∧
        Send.mk c.cid .sse data ∈ (broadcastToAll data st).2) ∧
    (∀ c ∈ st.wsClients, c.readyState = 1 → c.sendFails = true →
      c ∉ (broadcastToAll data st).1.wsClients) ∧
    (∀ c ∈ st.wsClients, c.readyState = 1 → c.sendFails = false →
      c ∈ (broadcastToAll data st).1.wsClients ∧
        Send.mk c.cid .ws data ∈ (broadcastToAll data st).2) := by
  rw [broadcastToAll_eq]
  dsimp only
  refine ⟨?_, ?_, ?_, ?_⟩
  · intro c hc hf hmem
    rw [List.mem_filter] at hmem
    simp [hf] at hmem
  · intro c hc hf
    have hm : c ∈ st.sseClients.filter (fun c => !c.writeFails) :=
      List.mem_filter.mpr ⟨hc, by simp [hf]⟩
    exact ⟨hm, List.mem_append_left _ (List.mem_map_of_mem _ hm)⟩
  · intro c hc h1 hf hmem
    rw [List.mem_filter] at hmem
    simp [h1, hf] at hmem
  · intro c hc h1 hf
    have hm : c ∈ st.wsClients.filter
        (fun c => decide (c.readyState = 1) && !c.sendFails) :=
      List.mem_filter.mpr ⟨hc, by simp [h1, hf]⟩
    exact ⟨List.mem_filter.mpr ⟨hc, by simp [h1, hf]⟩,
      List.mem_append_right _ (List.mem_map_of_mem _ hm)⟩

/-- Claim C8 witness: via `C8_broadcast_failure_isolation` — in a broadcast
where SSE client 1 and WebSocket client 3 throw, both are removed while SSE
client 2 and WebSocket client 4 still receive the message. -/
theorem C8_broadcast_failure_isolation_witness :
    (⟨1, true⟩ : SseClient) ∉
      (broadcastToAll ⟨⟨"sync", some ⟨some []⟩⟩, "figma", 9⟩
        ⟨[⟨1, true⟩, ⟨2, false⟩], [⟨3, 1, true⟩, ⟨4, 1, false⟩],
          []⟩).1.sseClients ∧
    Send.mk 2 .sse ⟨⟨"sync", some ⟨some []⟩⟩, "figma", 9⟩ ∈
      (broadcastToAll ⟨⟨"sync", some ⟨some []⟩⟩, "figma", 9⟩
        ⟨[⟨1, true⟩, ⟨2, false⟩], [⟨3, 1, true⟩, ⟨4, 1, false⟩], []⟩).2 ∧
    (⟨3, 1, true⟩ : WsClient) ∉
      (broadcastToAll ⟨⟨"sync", some ⟨some []⟩⟩, "figma", 9⟩
        ⟨[⟨1, true⟩, ⟨2, false⟩], [⟨3, 1, true⟩, ⟨4, 1, false⟩],
          []⟩).1.wsClients ∧
    Send.mk 4 .ws ⟨⟨"sync", some ⟨some []⟩⟩, "figma", 9⟩ ∈
      (broadcastToAll ⟨⟨"sync", some ⟨some []⟩⟩, "figma", 9⟩
        ⟨[⟨1, true⟩, ⟨2, false⟩], [⟨3, 1, true⟩, ⟨4, 1, false⟩], []⟩).2 :=
  ⟨(C8_broadcast_failure_isolation ⟨⟨"sync", some ⟨some []⟩⟩, "figma", 9⟩
      ⟨[⟨1, true⟩, ⟨2, false⟩], [⟨3, 1, true⟩, ⟨4, 1, false⟩], []⟩).1
    ⟨1, true⟩ (by decide) rfl,
   ((C8_broadcast_failure_isolation ⟨⟨"sync", some ⟨some []⟩⟩, "figma", 9⟩
      ⟨[⟨1, true⟩, ⟨2, false⟩], [⟨3, 1, true⟩, ⟨4, 1, false⟩], []⟩).2.1
    ⟨2, false⟩ (by decide) rfl).2,
   (C8_broadcast_failure_isolation ⟨⟨"sync", some ⟨some []⟩⟩, "figma", 9⟩
      ⟨[⟨1, true⟩, ⟨2, false⟩], [⟨3, 1, true⟩, ⟨4, 1, false⟩], []⟩).2.2.1
    ⟨3, 1, true⟩ (by decide) rfl rfl,
   ((C8_broadcast_failure_isolation ⟨⟨"sync", some ⟨some []⟩⟩, "figma", 9⟩
      ⟨[⟨1, true⟩, ⟨2, false⟩], [⟨3, 1, true⟩, ⟨4, 1, false⟩], []⟩).2.2.2
    ⟨4, 1, false⟩ (by decide) rfl rfl).2⟩

/-- Claim C9 counterexample: an `update` message processed while the only
connected WebSocket client's send throws removes that client — the
connected-client sets are not left unchanged by non-`sync` messages, as the
claim states. -/
theorem C9_client_set_counterexample :
    processInbound ⟨"update", none⟩ "websocket" 5 ⟨[], [⟨0, 1, true⟩], []⟩ =
      some (⟨[], [], []⟩, []) ∧
    (⟨[], [], []⟩ : RelayState).wsClients ≠
      (⟨[], [⟨0, 1, true⟩], []⟩ : RelayState).wsClients := by decide

/-- Claim C9 (amended): for every inbound message, over every relay state:
a non-`sync` message is stamped with `source` and `timestamp` and broadcast
— delivered to every non-throwing SSE client and every OPEN non-throwing
WebSocket client — leaving `currentTokens` unchanged; `currentTokens`
changes only for a `sync` whose `payload.tokens` is present, and then to
exactly that array; the connected-client sets after any processed message
are the previous sets minus exactly the clients whose write/send threw
during the broadcast; GET `/api/tokens` always serves `currentTokens`, the
snapshot stored by the last such sync. -/
theorem C9_mutation_only_on_sync (m : WireMessage) (source : String)
    (now now2 : Nat) (st : RelayState) :
    (m.type ≠ "sync" →
      processInbound m source now st =
        some ({ st with
            sseClients := st.sseClients.filter (fun c => !c.writeFails),
            wsClients := st.wsClients.filter
              (fun c => !(decide (c.readyState = 1) && c.sendFails)) },
          (st.sseClients.filter (fun c => !c.writeFails)).map
              (fun c => ⟨c.cid, .sse, ⟨m, source, now⟩⟩) ++
            (st.wsClients.filter
                (fun c => decide (c.readyState = 1) && !c.sendFails)).map
              (fun c => ⟨c.cid, .ws, ⟨m, source, now⟩⟩))) ∧
    (∀ st' sends, processInbound m source now st = some (st', sends) →
      st'.currentTokens = st.currentTokens ∨
        (m.type = "sync" ∧
          ∃ p, m.payload = some p ∧ p.tokens = some st'.currentTokens)) ∧
    (∀ st' sends, processInbound m source now st = some (st', sends) →
      st'.sseClients = st.sseClients.filter (fun c => !c.writeFails) ∧
      st'.wsClients = st.wsClients.filter
        (fun c => !(decide (c.readyState = 1) && c.sendFails))) ∧
    (∀ st' : RelayState, (handleGet now2 st').2.tokens = st'.currentTokens) := by
  refine ⟨?_, ?_, ?_, fun _ => rfl⟩
  · intro hty
    unfold processInbound
    rw [if_neg hty, broadcastToAll_eq]
  · intro st' sends h
    rcases processInbound_cases m source now st with hn | ⟨ts, heq, hts⟩
    · rw [h] at hn
      cases hn
    · rw [heq, broadcastToAll_eq] at h
      injection h with h
      have hst : st' = { { st with currentTokens := ts } with
          sseClients := st.sseClients.filter (fun c => !c.writeFails),
          wsClients := st.wsClients.filter
            (fun c => !(decide (c.readyState = 1) && c.sendFails)) } :=
        (congrArg Prod.fst h).symm
      subst hst
      rcases hts with h1 | h2
      · exact Or.inl h1
      · exact Or.inr h2
  · intro st' sends h
    rcases processInbound_cases m source now st with hn | ⟨ts, heq, hts⟩
    · rw [h] at hn
      cases hn
    · rw [heq, broadcastToAll_eq] at h
      injection h with h
      have hst : st' = { { st with currentTokens := ts } with
          sseClients := st.sseClients.filter (fun c => !c.writeFails),
          wsClients := st.wsClients.filter
            (fun c => !(decide (c.readyState = 1) && c.sendFails)) } :=
        (congrArg Prod.fst h).symm
      subst hst
      exact ⟨rfl, rfl⟩

/-- Claim C9 witness: via `C9_mutation_only_on_sync` — an `update` message
through a relay with one healthy SSE client and one throwing WebSocket
client is delivered to the SSE client, drops the throwing client, and leaves
`currentTokens` untouched; GET then still serves the stored token. -/
theorem C9_mutation_only_on_sync_witness :
    processInbound ⟨"update", none⟩ "websocket" 5
        ⟨[⟨1, false⟩], [⟨2, 1, true⟩], [⟨"a", "n", "color", "v", none⟩]⟩ =
      some (⟨[⟨1, false⟩], [], [⟨"a", "n", "color", "v", none⟩]⟩,
        [⟨1, .sse, ⟨⟨"update", none⟩, "websocket", 5⟩⟩]) ∧
    (handleGet 6 ⟨[⟨1, false⟩], [],
        [⟨"a", "n", "color", "v", none⟩]⟩).2.tokens =
      [⟨"a", "n", "color", "v", none⟩] :=
  ⟨(C9_mutation_only_on_sync ⟨"update", none⟩ "websocket" 5 6
      ⟨[⟨1, false⟩], [⟨2, 1, true⟩], [⟨"a", "n", "color", "v", none⟩]⟩).1
    (by decide),
   (C9_mutation_only_on_sync ⟨"update", none⟩ "websocket" 5 6
      ⟨[⟨1, false⟩], [⟨2, 1, true⟩], [⟨"a", "n", "color", "v", none⟩]⟩).2.2.2
     ⟨[⟨1, false⟩], [], [⟨"a", "n", "color", "v", none⟩]⟩⟩

end DTM
